import Mathlib

/-
Shallow embedding of the railway-baileys WhatsApp service (the per-firm
session orchestrator and message dispatcher in the main server source).
The external messaging client is opaque: the model tracks only whether a
client object is attached to the session (hasClient) and which commands
are issued to it (logout, destroy).  Timestamps are Nat milliseconds.
-/

/-- Session status strings used by the service source. -/
inductive SessionStatus where
  | disconnected
  | restoring
  | initializing
  | max_attempts_reached
  | qr_ready
  | qr_failed
  | authenticated
  | auth_failed
  | ready
  | manually_disconnected
  | resetting
  deriving DecidableEq

/-- One queued outbound message: generated id, destination number, body. -/
structure QueuedMessage where
  id : String
  number : String
  message : String
  deriving DecidableEq

/-- Per-firm session state, one entry of the process-wide sessions map. -/
structure Session where
  firmId : String
  hasClient : Bool
  qrCode : Option String
  isReady : Bool
  status : SessionStatus
  messageQueue : List QueuedMessage
  isProcessingQueue : Bool
  lastActivity : Nat
  createdAt : Nat
  reconnectAttempts : Nat
  maxReconnectAttempts : Nat
  isPersistent : Bool
  lastLinked : Option Nat
  deriving DecidableEq

/-- SESSION_TIMEOUT constant: 30 days in milliseconds. -/
def SESSION_TIMEOUT : Nat := 30 * 24 * 60 * 60 * 1000

/-- The fresh session record built by getOrCreateSession on first use. -/
def freshSession (firmId : String) (now : Nat) : Session :=
  { firmId := firmId
    hasClient := false
    qrCode := none
    isReady := false
    status := SessionStatus.disconnected
    messageQueue := []
    isProcessingQueue := false
    lastActivity := now
    createdAt := now
    reconnectAttempts := 0
    maxReconnectAttempts := 5
    isPersistent := false
    lastLinked := none }

/-- The session record rebuilt by loadPersistedSessions for a persisted firm. -/
def restoredSession (firmId : String) (lastLinked createdAt now : Nat) : Session :=
  { firmId := firmId
    hasClient := false
    qrCode := none
    isReady := false
    status := SessionStatus.restoring
    messageQueue := []
    isProcessingQueue := false
    lastActivity := now
    createdAt := createdAt
    reconnectAttempts := 0
    maxReconnectAttempts := 5
    isPersistent := true
    lastLinked := some lastLinked }

/-- The digit characters of a phone string: the replace of non-digits. -/
def digitsOf (phone : String) : List Char :=
  phone.data.filter fun c => c.isDigit

/-- formatPhoneNumber branch logic on the stripped digit list. -/
def formatDigits (ds : List Char) : List Char :=
  if ds.take 2 = ['9', '1'] ∧ ds.length = 12 then ds
  else if ds.length = 10 then '9' :: '1' :: ds
  else if 10 ≤ ds.length then '9' :: '1' :: ds.drop (ds.length - 10)
  else ds

/-- formatPhoneNumber: strip non-digits, then normalize to 91 + 10 digits. -/
def formatPhoneNumber (phone : String) : String :=
  String.mk (formatDigits (digitsOf phone))

/-- The process-wide sessions map, keyed by the string firm_ and the firm id. -/
abbrev SessionMap := List (String × Session)

/-- Association-list lookup, the model of Map.get / Map.has. -/
def alistGet {β : Type} : List (String × β) → String → Option β
  | [], _ => none
  | p :: rest, k => if p.1 = k then some p.2 else alistGet rest k

/-- Association-list update, the model of Map.set (keys stay unique). -/
def mapSet : SessionMap → String → Session → SessionMap
  | [], k, v => [(k, v)]
  | p :: rest, k, v => if p.1 = k then (k, v) :: rest else p :: mapSet rest k v

/-- getOrCreateSession: lazily create the session for a firm, refresh
lastActivity, return the stored session.  A falsy firm id yields null. -/
def getOrCreateSession (now : Nat) (m : SessionMap) (firmId : String) :
    SessionMap × Option Session :=
  if firmId = "" then (m, none)
  else
    let key := "firm_" ++ firmId
    let m1 := match alistGet m key with
      | some _ => m
      | none => mapSet m key (freshSession firmId now)
    match alistGet m1 key with
    | some s =>
      let s2 := { s with lastActivity := now }
      (mapSet m1 key s2, some s2)
    | none => (m1, none)

/-- Extract the firm id from a session token, after the anchored pattern
firm_ followed by one or more non-underscore characters and an underscore. -/
def parseFirmId (sessionId : String) : Option String :=
  match sessionId.data with
  | 'f' :: 'i' :: 'r' :: 'm' :: '_' :: rest =>
    let tid := rest.takeWhile fun c => c ≠ '_'
    let rem := rest.dropWhile fun c => c ≠ '_'
    if tid ≠ [] ∧ rem ≠ [] then some (String.mk tid) else none
  | _ => none

/-- getSession: route a session token to its firm session via the registry. -/
def getSession (now : Nat) (m : SessionMap) (sessionId : String) :
    SessionMap × Option Session :=
  match parseFirmId sessionId with
  | none => (m, none)
  | some fid => getOrCreateSession now m fid

/-- Result of one sendMessage call through the external client. -/
inductive SendResult where
  | ok
  | err (msg : String)
  deriving DecidableEq

/-- Character-list prefix test, an executable helper for includes. -/
def listStartsWith : List Char → List Char → Bool
  | [], _ => true
  | _ :: _, [] => false
  | c :: cs, h :: hs => c = h && listStartsWith cs hs

/-- Character-list substring test, the model of String.prototype.includes. -/
def listContains (needle : List Char) : List Char → Bool
  | [] => listStartsWith needle []
  | h :: hs => listStartsWith needle (h :: hs) || listContains needle hs

/-- Rate-limit classification: the error message includes rate or limit. -/
def isRateLimitError (msg : String) : Bool :=
  listContains "rate".data msg.data || listContains "limit".data msg.data

/-- Observable outcome of one drain: remaining queue, messages sent,
messages dropped, and the rate-limit cooldown waited in milliseconds. -/
structure DrainOutcome where
  queue : List QueuedMessage
  sent : List QueuedMessage
  dropped : List QueuedMessage
  cooldownMs : Nat
  deriving DecidableEq

/-- The batch loop of processMessageQueue: up to the budget, shift the head,
send it; on a rate-limit error unshift it back and break after the 10s wait;
on any other error drop it and continue.  Successful sends pace 3s each,
which does not affect the queue and is not recorded here. -/
def drainLoop (send : QueuedMessage → SendResult) :
    Nat → List QueuedMessage → DrainOutcome
  | 0, q => { queue := q, sent := [], dropped := [], cooldownMs := 0 }
  | _ + 1, [] => { queue := [], sent := [], dropped := [], cooldownMs := 0 }
  | n + 1, m :: rest =>
    match send m with
    | SendResult.ok =>
      let o := drainLoop send n rest
      { queue := o.queue, sent := m :: o.sent, dropped := o.dropped
        cooldownMs := o.cooldownMs }
    | SendResult.err msg =>
      if isRateLimitError msg then
        { queue := m :: rest, sent := [], dropped := [], cooldownMs := 10000 }
      else
        let o := drainLoop send n rest
        { queue := o.queue, sent := o.sent, dropped := m :: o.dropped
          cooldownMs := o.cooldownMs }

/-- processMessageQueue: guarded entry around the batch loop.  Returns the
session after the drain and the drain outcome, or none when the guard
(missing session, drain in flight, empty queue, not ready) short-circuits. -/
def processQueueStep (send : QueuedMessage → SendResult) :
    Option Session → Option Session × Option DrainOutcome
  | none => (none, none)
  | some s =>
    if s.isProcessingQueue = true ∨ s.messageQueue = [] ∨ s.isReady = false then
      (some s, none)
    else
      let o := drainLoop send (min 5 s.messageQueue.length) s.messageQueue
      (some { s with messageQueue := o.queue }, some o)

/-- initializeClient: no-op when a client object exists; otherwise set
status initializing, bump reconnectAttempts, then either park the session
in max_attempts_reached or construct the client. -/
def initializeClient (s : Session) : Session :=
  if s.hasClient = true then s
  else
    let s1 := { s with status := SessionStatus.initializing
                       reconnectAttempts := s.reconnectAttempts + 1 }
    if s1.maxReconnectAttempts < s1.reconnectAttempts then
      { s1 with status := SessionStatus.max_attempts_reached }
    else
      { s1 with hasClient := true }

/-- The ready event handler.  The Bool records that savePersistedSessions
is invoked by the handler. -/
def onReady (now : Nat) (s : Session) : Session × Bool :=
  ({ s with isReady := true
            status := SessionStatus.ready
            qrCode := none
            reconnectAttempts := 0
            isPersistent := true
            lastLinked := some now }, true)

/-- Reconnect delay for a persistent session after a disconnect. -/
def persistentDelayMs (attempts : Nat) : Nat := min 60000 (10000 * attempts)

/-- Reconnect delay for a non-persistent session after a disconnect. -/
def tempDelayMs (attempts : Nat) : Nat := min 30000 (5000 * attempts)

/-- Reconnect scheduling decision taken by the disconnected handler on the
already-updated session state: some delay means a reconnect timer is set. -/
def reconnectDecision (reason : String) (s1 : Session) : Option Nat :=
  if s1.isPersistent = true ∧ s1.status ≠ SessionStatus.manually_disconnected then
    some (persistentDelayMs s1.reconnectAttempts)
  else if s1.isPersistent = false ∧ reason ≠ "NAVIGATION" ∧ reason ≠ "LOGOUT" then
    some (tempDelayMs s1.reconnectAttempts)
  else
    none

/-- The disconnected event handler: clear readiness and QR, set status
disconnected, then decide whether to schedule a reconnect and with what
delay. -/
def onDisconnected (reason : String) (s : Session) : Session × Option Nat :=
  let s1 := { s with isReady := false
                     status := SessionStatus.disconnected
                     qrCode := none }
  (s1, reconnectDecision reason s1)

/-- Commands issued to the external client object. -/
inductive ClientAction where
  | logout
  | destroy
  deriving DecidableEq

/-- The permanent-unlink endpoint body: clear all session data, drop
persistence, then log out and destroy the client when one exists. -/
def disconnectPermanently (s : Session) : Session × List ClientAction :=
  let s1 := { s with qrCode := none
                     isReady := false
                     status := SessionStatus.manually_disconnected
                     messageQueue := []
                     isPersistent := false
                     lastLinked := none }
  if s.hasClient = true then
    ({ s1 with hasClient := false }, [ClientAction.logout, ClientAction.destroy])
  else
    (s1, [])

/-- The reset endpoint body: clear QR, readiness and queue, destroy the
client, status resetting (re-initialization is a later timer). -/
def resetSession (s : Session) : Session :=
  { s with qrCode := none
           isReady := false
           status := SessionStatus.resetting
           messageQueue := []
           hasClient := false }

/-- Durable projection of a session written by savePersistedSessions. -/
structure PersistedRecord where
  firmId : String
  isPersistent : Bool
  lastLinked : Option Nat
  createdAt : Nat
  status : SessionStatus
  deriving DecidableEq

/-- savePersistedSessions: keep exactly the sessions that are persistent
and carry a lastLinked timestamp, keyed by firm id. -/
def savePersistedSessions : SessionMap → List (String × PersistedRecord)
  | [] => []
  | p :: rest =>
    if p.2.isPersistent = true ∧ p.2.lastLinked.isSome = true then
      (p.2.firmId,
        { firmId := p.2.firmId
          isPersistent := true
          lastLinked := p.2.lastLinked
          createdAt := p.2.createdAt
          status := p.2.status }) :: savePersistedSessions rest
    else savePersistedSessions rest

/-- The per-session eviction test of cleanupOldSessions. -/
def shouldEvict (now : Nat) (s : Session) : Bool :=
  let isOld := decide (SESSION_TIMEOUT < now - s.lastActivity)
  let isVeryStale := decide (SESSION_TIMEOUT * 3 < now - s.createdAt)
  if s.isPersistent then
    isVeryStale && !s.isReady && decide (s.status = SessionStatus.disconnected)
  else
    isOld || isVeryStale

/-- cleanupOldSessions: delete every session the eviction test selects. -/
def cleanupOldSessions (now : Nat) (m : SessionMap) : SessionMap :=
  m.filter fun p => !shouldEvict now p.2

/-- Every operation of the service that mutates one session in place. -/
inductive SessionOp where
  | qr (renderOk : Bool) (url : String)
  | ready (now : Nat)
  | authenticated
  | authFailure
  | disconnected (reason : String)
  | reset
  | permanentDisconnect
  | initClient
  | drain (send : QueuedMessage → SendResult)
  | touch (now : Nat)
  | enqueue (msg : QueuedMessage)

/-- Effect of one operation on a session, following the handler bodies. -/
def applyOp (s : Session) : SessionOp → Session
  | SessionOp.qr renderOk url =>
    let s1 := { s with status := SessionStatus.qr_ready }
    if renderOk then { s1 with qrCode := some url }
    else { s1 with status := SessionStatus.qr_failed }
  | SessionOp.ready now => (onReady now s).1
  | SessionOp.authenticated => { s with status := SessionStatus.authenticated }
  | SessionOp.authFailure =>
    { s with status := SessionStatus.auth_failed, qrCode := none }
  | SessionOp.disconnected reason => (onDisconnected reason s).1
  | SessionOp.reset => resetSession s
  | SessionOp.permanentDisconnect => (disconnectPermanently s).1
  | SessionOp.initClient => initializeClient s
  | SessionOp.drain send => ((processQueueStep send (some s)).1).getD s
  | SessionOp.touch now => { s with lastActivity := now }
  | SessionOp.enqueue msg => { s with messageQueue := s.messageQueue ++ [msg] }

/-- Sessions reachable by the service: created fresh, restored from the
persistence file, or produced from a reachable session by an operation. -/
inductive ReachableSession : Session → Prop where
  | fresh (firmId : String) (now : Nat) : ReachableSession (freshSession firmId now)
  | restored (firmId : String) (lastLinked createdAt now : Nat) :
      ReachableSession (restoredSession firmId lastLinked createdAt now)
  | step (s : Session) (op : SessionOp) :
      ReachableSession s → ReachableSession (applyOp s op)

/-- Scanning a reversed operation list: was a ready event observed after
the last permanent disconnect, given the persistence flag was b before the
whole list. -/
def readyObservedRevFrom (b : Bool) : List SessionOp → Bool
  | [] => b
  | SessionOp.ready _ :: _ => true
  | SessionOp.permanentDisconnect :: _ => false
  | _ :: rest => readyObservedRevFrom b rest

/-- Was a ready event observed since the last permanent disconnect: scan
the reversed trace, succeed on ready, fail on permanent disconnect. -/
def readyObservedRev (ops : List SessionOp) : Bool :=
  readyObservedRevFrom false ops

/-- How one operation updates the persistence flag in isolation. -/
def persistStep (b : Bool) : SessionOp → Bool
  | SessionOp.ready _ => true
  | SessionOp.permanentDisconnect => false
  | _ => b


/-! Helper lemmas shared by several claims. -/

lemma formatDigits_short (ds : List Char) (h : ds.length < 10) :
    formatDigits ds = ds := by
  have h1 : ¬ (ds.take 2 = ['9', '1'] ∧ ds.length = 12) := by
    rintro ⟨-, h12⟩; omega
  have h2 : ds.length ≠ 10 := by omega
  have h3 : ¬ 10 ≤ ds.length := by omega
  simp [formatDigits, h1, h2, h3]

lemma formatDigits_long (ds : List Char) (h : 11 ≤ ds.length) :
    formatDigits ds = '9' :: '1' :: ds.drop (ds.length - 10) := by
  by_cases h1 : ds.take 2 = ['9', '1'] ∧ ds.length = 12
  · have hds : ds = '9' :: '1' :: ds.drop 2 := by
      conv_lhs => rw [← List.take_append_drop 2 ds]
      rw [h1.1]; rfl
    have : ds.length - 10 = 2 := by omega
    rw [formatDigits, if_pos h1, this]
    exact hds
  · have h2 : ds.length ≠ 10 := by omega
    have h3 : 10 ≤ ds.length := by omega
    simp [formatDigits, h1, h2, h3]

/-- C9: phone normalization strips non-digits; a digit string already
starting with 91 of length 12 is returned unchanged, a local 10-digit
string gets 91 prepended, a longer string keeps its trailing 10 digits
with 91 prepended; the three spec examples evaluate accordingly. -/
theorem c9_phone_format :
    (∀ p : String, (digitsOf p).take 2 = ['9', '1'] → (digitsOf p).length = 12 →
      formatPhoneNumber p = String.mk (digitsOf p))
    ∧ (∀ p : String, (digitsOf p).length = 10 →
      formatPhoneNumber p = String.mk ('9' :: '1' :: digitsOf p))
    ∧ (∀ p : String, 11 ≤ (digitsOf p).length →
      formatPhoneNumber p =
        String.mk ('9' :: '1' :: (digitsOf p).drop ((digitsOf p).length - 10)))
    ∧ formatPhoneNumber ("9876543210") = "919876543210"
    ∧ formatPhoneNumber ("919876543210") = "919876543210"
    ∧ formatPhoneNumber ("+91-98765-43210") = "919876543210" := by
  refine ⟨fun p h1 h2 => ?_, fun p h => ?_, fun p h => ?_, by decide, by decide, by decide⟩
  · rw [formatPhoneNumber, formatDigits, if_pos ⟨h1, h2⟩]
  · have h1 : ¬ ((digitsOf p).take 2 = ['9', '1'] ∧ (digitsOf p).length = 12) := by
      rintro ⟨-, h12⟩; omega
    rw [formatPhoneNumber, formatDigits, if_neg h1, if_pos h]
  · rw [formatPhoneNumber, formatDigits_long _ h]

/-- C9 witness: the general branches applied at concrete inputs. -/
theorem c9_phone_format_witness :
    formatPhoneNumber ("919876543210") = String.mk (digitsOf ("919876543210"))
    ∧ formatPhoneNumber ("9876543210") = String.mk ('9' :: '1' :: digitsOf ("9876543210"))
    ∧ formatPhoneNumber ("00919876543210") =
        String.mk ('9' :: '1' ::
          (digitsOf ("00919876543210")).drop ((digitsOf ("00919876543210")).length - 10)) :=
  ⟨c9_phone_format.1 ("919876543210") (by decide) (by decide),
   c9_phone_format.2.1 ("9876543210") (by decide),
   c9_phone_format.2.2.1 ("00919876543210") (by decide)⟩

/-- C10: for inputs with fewer than 10 digit characters the stripped digit
string is returned with no country prefix, so the result is not always of
international length; the empty string maps to itself. -/
theorem c10_phone_short_inputs :
    (∀ p : String, (digitsOf p).length < 10 →
      formatPhoneNumber p = String.mk (digitsOf p))
    ∧ formatPhoneNumber ("") = ""
    ∧ formatPhoneNumber ("12345") = "12345"
    ∧ (formatPhoneNumber ("12345")).length ≠ 12 := by
  refine ⟨fun p h => ?_, by decide, by decide, by decide⟩
  rw [formatPhoneNumber, formatDigits_short _ h]

/-- C10 witness: the general part applied at a concrete short input. -/
theorem c10_phone_short_inputs_witness :
    (digitsOf ("a1b2")).length < 10
    ∧ formatPhoneNumber ("a1b2") = String.mk (digitsOf ("a1b2")) :=
  ⟨by decide, c10_phone_short_inputs.1 ("a1b2") (by decide)⟩


/-- C2 counterexample: with no client attached, attempts already past the
maximum and terminal status, a further initializeClient call is not a
no-op (it still increments reconnectAttempts), refuting the claim that
initialize changes nothing once attempts are exhausted. -/
theorem c2_initialize_counterexample :
    initializeClient { freshSession "f" 0 with
                         reconnectAttempts := 6
                         status := SessionStatus.max_attempts_reached }
      ≠ { freshSession "f" 0 with
            reconnectAttempts := 6
            status := SessionStatus.max_attempts_reached }
    ∧ (initializeClient { freshSession "f" 0 with
                            reconnectAttempts := 6
                            status := SessionStatus.max_attempts_reached }).reconnectAttempts = 7 :=
  ⟨by decide, by decide⟩

/-- C2 amended: initializeClient is a no-op exactly when a client already
exists; with attempts exhausted it still increments reconnectAttempts and
(re)sets the terminal max-attempts status without constructing a client;
otherwise it increments reconnectAttempts, sets status initializing and
constructs the client. -/
theorem c2_initialize_amended :
    (∀ s : Session, s.hasClient = true → initializeClient s = s)
    ∧ (∀ s : Session, s.hasClient = false →
        s.maxReconnectAttempts < s.reconnectAttempts + 1 →
        initializeClient s = { s with status := SessionStatus.max_attempts_reached
                                      reconnectAttempts := s.reconnectAttempts + 1 })
    ∧ (∀ s : Session, s.hasClient = false →
        s.reconnectAttempts + 1 ≤ s.maxReconnectAttempts →
        initializeClient s = { s with status := SessionStatus.initializing
                                      reconnectAttempts := s.reconnectAttempts + 1
                                      hasClient := true })
    ∧ (∀ s : Session, s.hasClient = false →
        s.maxReconnectAttempts < s.reconnectAttempts →
        (initializeClient s).status = SessionStatus.max_attempts_reached
        ∧ (initializeClient s).hasClient = false
        ∧ (initializeClient s).reconnectAttempts = s.reconnectAttempts + 1) := by
  refine ⟨fun s h => ?_, fun s h hmax => ?_, fun s h hle => ?_, fun s h hmax => ?_⟩
  · rw [initializeClient, if_pos h]
  · rw [initializeClient, if_neg (by simp [h])]
    dsimp only
    rw [if_pos hmax]
  · rw [initializeClient, if_neg (by simp [h])]
    dsimp only
    rw [if_neg (by omega)]
  · rw [initializeClient, if_neg (by simp [h])]
    dsimp only
    rw [if_pos (by omega)]
    exact ⟨rfl, h, rfl⟩

/-- C2 witness: the amended branches applied at concrete sessions. -/
theorem c2_initialize_amended_witness :
    initializeClient { freshSession "f" 0 with hasClient := true }
      = { freshSession "f" 0 with hasClient := true }
    ∧ initializeClient { freshSession "f" 0 with reconnectAttempts := 5 }
      = { { freshSession "f" 0 with reconnectAttempts := 5 } with
            status := SessionStatus.max_attempts_reached
            reconnectAttempts := 6 }
    ∧ initializeClient (freshSession "f" 0)
      = { freshSession "f" 0 with status := SessionStatus.initializing
                                  reconnectAttempts := 1
                                  hasClient := true } :=
  ⟨c2_initialize_amended.1 _ rfl,
   c2_initialize_amended.2.1 _ rfl (by decide),
   c2_initialize_amended.2.2.1 _ rfl (by decide)⟩

/-- C1: in a drain batch, after any run of successful sends, a failure
classified as rate-limiting puts the failing message back at the front of
the queue (nothing is lost or dropped), records the 10-second cooldown and
aborts the rest of the batch with the remaining messages still queued;
a failure with any other error drops exactly that message and the loop
continues with the next queued message and the remaining budget. -/
theorem c1_drain_failure_handling :
    ∀ (send : QueuedMessage → SendResult) (pre rest : List QueuedMessage)
      (m : QueuedMessage) (emsg : String) (n : Nat),
      (∀ x ∈ pre, send x = SendResult.ok) →
      send m = SendResult.err emsg →
      pre.length < n →
      ((isRateLimitError emsg = true →
        drainLoop send n (pre ++ m :: rest) =
          { queue := m :: rest, sent := pre, dropped := [], cooldownMs := 10000 })
      ∧ (isRateLimitError emsg = false →
        drainLoop send n (pre ++ m :: rest) =
          { queue := (drainLoop send (n - pre.length - 1) rest).queue
            sent := pre ++ (drainLoop send (n - pre.length - 1) rest).sent
            dropped := m :: (drainLoop send (n - pre.length - 1) rest).dropped
            cooldownMs := (drainLoop send (n - pre.length - 1) rest).cooldownMs })) := by
  intro send pre rest m emsg n hok hsend hlt
  induction pre generalizing n with
  | nil =>
    cases n with
    | zero => omega
    | succ k =>
      constructor
      · intro hrl
        simp [drainLoop, hsend, hrl]
      · intro hrl
        simp [drainLoop, hsend, hrl]
  | cons p pre ih =>
    cases n with
    | zero => omega
    | succ k =>
      have hp : send p = SendResult.ok := hok p (List.mem_cons_self p pre)
      have hok' : ∀ x ∈ pre, send x = SendResult.ok :=
        fun x hx => hok x (List.mem_cons_of_mem p hx)
      have hlt' : pre.length < k := by simpa using hlt
      obtain ⟨ih1, ih2⟩ := ih hok' hlt' (n := k)
      constructor
      · intro hrl
        simp only [List.cons_append, List.append_eq, drainLoop, hp]
        rw [ih1 hrl]
      · intro hrl
        have hidx : k + 1 - (p :: pre).length - 1 = k - pre.length - 1 := by
          simp only [List.length_cons]
          omega
        simp only [List.cons_append, List.append_eq, drainLoop, hp]
        rw [ih2 hrl, hidx]

/-- Concrete messages and send oracles used by the C1 witness. -/
def msgA : QueuedMessage := ⟨"1", "n1", "a"⟩

/-- Second concrete message for the C1 witness. -/
def msgB : QueuedMessage := ⟨"2", "n2", "b"⟩

/-- Third concrete message for the C1 witness. -/
def msgC : QueuedMessage := ⟨"3", "n3", "c"⟩

/-- Send oracle failing msgB with a rate-limit error. -/
def sendRateLimited (q : QueuedMessage) : SendResult :=
  if q.id = "2" then SendResult.err ("rate limit hit") else SendResult.ok

/-- Send oracle failing msgB with a non-rate-limit error. -/
def sendOtherError (q : QueuedMessage) : SendResult :=
  if q.id = "2" then SendResult.err ("socket closed") else SendResult.ok

/-- C1 witness: both failure branches applied at concrete batches. -/
theorem c1_drain_failure_handling_witness :
    drainLoop sendRateLimited 5 ([msgA] ++ msgB :: [msgC]) =
      { queue := msgB :: [msgC], sent := [msgA], dropped := [], cooldownMs := 10000 }
    ∧ drainLoop sendOtherError 5 ([msgA] ++ msgB :: [msgC]) =
      { queue := (drainLoop sendOtherError (5 - [msgA].length - 1) [msgC]).queue
        sent := [msgA] ++ (drainLoop sendOtherError (5 - [msgA].length - 1) [msgC]).sent
        dropped := msgB :: (drainLoop sendOtherError (5 - [msgA].length - 1) [msgC]).dropped
        cooldownMs := (drainLoop sendOtherError (5 - [msgA].length - 1) [msgC]).cooldownMs } :=
  ⟨(c1_drain_failure_handling sendRateLimited [msgA] [msgC] msgB ("rate limit hit") 5
      (by decide) (by decide) (by decide)).1 (by decide),
   (c1_drain_failure_handling sendOtherError [msgA] [msgC] msgB ("socket closed") 5
      (by decide) (by decide) (by decide)).2 (by decide)⟩

lemma drainLoop_all_ok (send : QueuedMessage → SendResult) :
    ∀ (n : Nat) (q : List QueuedMessage), (∀ x ∈ q, send x = SendResult.ok) →
      drainLoop send n q =
        { queue := q.drop n, sent := q.take n, dropped := [], cooldownMs := 0 }
  | 0, q, _ => by simp [drainLoop]
  | n + 1, [], _ => by simp [drainLoop]
  | n + 1, m :: rest, h => by
    have hm : send m = SendResult.ok := h m (List.mem_cons_self m rest)
    have hr := drainLoop_all_ok send n rest (fun x hx => h x (List.mem_cons_of_mem m hx))
    simp only [drainLoop, hm, hr]
    simp

/-- C3: a drain proceeds only when the session exists, no drain is in
flight, the queue is non-empty and the session is ready (each guard alone
makes the call a no-op), and a proceeding drain attempts at most 5
messages oldest first: with 7 queued messages and successful sends the
first drain sends the oldest 5 and leaves 2 queued, and a second drain
sends the remaining 2 and empties the queue. -/
theorem c3_drain_guard_and_batch :
    (∀ send, processQueueStep send none = (none, none))
    ∧ (∀ send s, s.isProcessingQueue = true →
        processQueueStep send (some s) = (some s, none))
    ∧ (∀ send s, s.messageQueue = [] →
        processQueueStep send (some s) = (some s, none))
    ∧ (∀ send s, s.isReady = false →
        processQueueStep send (some s) = (some s, none))
    ∧ (∀ send s, (∀ x ∈ s.messageQueue, send x = SendResult.ok) →
        s.isProcessingQueue = false → s.isReady = true → s.messageQueue.length = 7 →
        processQueueStep send (some s) =
          (some { s with messageQueue := s.messageQueue.drop 5 },
           some { queue := s.messageQueue.drop 5, sent := s.messageQueue.take 5
                  dropped := [], cooldownMs := 0 })
        ∧ processQueueStep send (some { s with messageQueue := s.messageQueue.drop 5 }) =
          (some { s with messageQueue := [] },
           some { queue := [], sent := s.messageQueue.drop 5
                  dropped := [], cooldownMs := 0 })
        ∧ (s.messageQueue.drop 5).length = 2) := by
  refine ⟨fun send => rfl, fun send s h => ?_, fun send s h => ?_, fun send s h => ?_,
          fun send s hok hproc hready hlen => ?_⟩
  · rw [processQueueStep, if_pos (Or.inl h)]
  · rw [processQueueStep, if_pos (Or.inr (Or.inl h))]
  · rw [processQueueStep, if_pos (Or.inr (Or.inr h))]
  · have hne : s.messageQueue ≠ [] := by
      intro h; rw [h] at hlen; simp at hlen
    have hguard : ¬ (s.isProcessingQueue = true ∨ s.messageQueue = [] ∨ s.isReady = false) := by
      simp [hproc, hready, hne]
    have hmin : min 5 s.messageQueue.length = 5 := by omega
    have hdrop_len : (s.messageQueue.drop 5).length = 2 := by
      simp [List.length_drop, hlen]
    refine ⟨?_, ?_, hdrop_len⟩
    · rw [processQueueStep, if_neg hguard]
      simp only [hmin, drainLoop_all_ok send 5 s.messageQueue hok]
    · have hne2 : s.messageQueue.drop 5 ≠ [] := by
        intro h; rw [h] at hdrop_len; simp at hdrop_len
      have hguard2 : ¬ (({ s with messageQueue := s.messageQueue.drop 5 }).isProcessingQueue = true
          ∨ ({ s with messageQueue := s.messageQueue.drop 5 }).messageQueue = []
          ∨ ({ s with messageQueue := s.messageQueue.drop 5 }).isReady = false) := by
        simp [hproc, hready, hne2]
      have hok2 : ∀ x ∈ s.messageQueue.drop 5, send x = SendResult.ok :=
        fun x hx => hok x (List.drop_subset 5 s.messageQueue hx)
      rw [processQueueStep, if_neg hguard2]
      have hmin2 : min 5 ({ s with messageQueue := s.messageQueue.drop 5 }).messageQueue.length = 2 := by
        show min 5 (s.messageQueue.drop 5).length = 2
        omega
      simp only [hmin2]
      rw [drainLoop_all_ok send 2 _ hok2]
      have h1 : (s.messageQueue.drop 5).drop 2 = [] := by
        apply List.drop_eq_nil_of_le; omega
      have h2 : (s.messageQueue.drop 5).take 2 = s.messageQueue.drop 5 := by
        apply List.take_of_length_le; omega
      simp [h1, h2]

/-- Seven-message queue used by the C3 witness. -/
def sevenQueue : List QueuedMessage :=
  [⟨"1", "n", "x"⟩, ⟨"2", "n", "x"⟩, ⟨"3", "n", "x"⟩, ⟨"4", "n", "x"⟩,
   ⟨"5", "n", "x"⟩, ⟨"6", "n", "x"⟩, ⟨"7", "n", "x"⟩]

/-- A ready session holding seven queued messages, for the C3 witness. -/
def readySeven : Session :=
  { freshSession "f" 0 with isReady := true, messageQueue := sevenQueue }

/-- C3 witness: the guard and the 7-message scenario at a concrete session. -/
theorem c3_drain_guard_and_batch_witness :
    processQueueStep (fun _ => SendResult.ok)
        (some { readySeven with isProcessingQueue := true }) =
      (some { readySeven with isProcessingQueue := true }, none)
    ∧ processQueueStep (fun _ => SendResult.ok) (some readySeven) =
        (some { readySeven with messageQueue := readySeven.messageQueue.drop 5 },
         some { queue := readySeven.messageQueue.drop 5
                sent := readySeven.messageQueue.take 5
                dropped := [], cooldownMs := 0 }) :=
  ⟨c3_drain_guard_and_batch.2.1 (fun _ => SendResult.ok)
      { readySeven with isProcessingQueue := true } rfl,
   (c3_drain_guard_and_batch.2.2.2.2 (fun _ => SendResult.ok) readySeven
      (by decide) rfl rfl (by decide)).1⟩

/-- C5: after a disconnect, a persistent session that is not manually
disconnected always gets a reconnect scheduled with delay
min(60s, 10s x attempts); a non-persistent session gets one with delay
min(30s, 5s x attempts) unless the reason is NAVIGATION or LOGOUT, in
which case no reconnect is scheduled; the persistent delay sequence is
10s, 20s, ... capped at 60s and non-decreasing. -/
theorem c5_reconnect_policy :
    (∀ (r : String) (s : Session), s.isPersistent = true →
        s.status ≠ SessionStatus.manually_disconnected →
        (onDisconnected r s).2 = some (persistentDelayMs s.reconnectAttempts))
    ∧ (∀ (r : String) (s : Session), s.isPersistent = false →
        r ≠ "NAVIGATION" → r ≠ "LOGOUT" →
        (onDisconnected r s).2 = some (tempDelayMs s.reconnectAttempts))
    ∧ (∀ s : Session, s.isPersistent = false →
        (onDisconnected ("LOGOUT") s).2 = none)
    ∧ (∀ s : Session, s.isPersistent = false →
        (onDisconnected ("NAVIGATION") s).2 = none)
    ∧ persistentDelayMs 1 = 10000
    ∧ persistentDelayMs 2 = 20000
    ∧ (∀ n : Nat, 6 ≤ n → persistentDelayMs n = 60000)
    ∧ (∀ n : Nat, persistentDelayMs n ≤ 60000)
    ∧ (∀ n k : Nat, n ≤ k → persistentDelayMs n ≤ persistentDelayMs k)
    ∧ (∀ n : Nat, 1 ≤ n → persistentDelayMs n = min 60000 (10000 * n)) := by
  refine ⟨fun r s hpers _ => ?_, fun r s hpers hnav hlog => ?_,
          fun s hpers => ?_, fun s hpers => ?_, by decide, by decide,
          fun n h => ?_, fun n => ?_, fun n k h => ?_, fun n _ => rfl⟩
  · show reconnectDecision r _ = _
    rw [reconnectDecision, if_pos ⟨hpers, fun hc => SessionStatus.noConfusion hc⟩]
  · show reconnectDecision r _ = _
    rw [reconnectDecision, if_neg (by simp [hpers]), if_pos ⟨hpers, hnav, hlog⟩]
  · show reconnectDecision ("LOGOUT") _ = _
    rw [reconnectDecision, if_neg (by simp [hpers]), if_neg (by simp)]
  · show reconnectDecision ("NAVIGATION") _ = _
    rw [reconnectDecision, if_neg (by simp [hpers]), if_neg (by simp)]
  · rw [persistentDelayMs]; omega
  · rw [persistentDelayMs]; omega
  · rw [persistentDelayMs, persistentDelayMs]
    have : 10000 * n ≤ 10000 * k := by omega
    omega

/-- C5 witness: the scheduling branches applied at concrete sessions. -/
theorem c5_reconnect_policy_witness :
    (onDisconnected ("stream error")
        { freshSession "f" 0 with isPersistent := true, reconnectAttempts := 2 }).2
      = some (persistentDelayMs 2)
    ∧ (onDisconnected ("stream error") { freshSession "f" 0 with reconnectAttempts := 1 }).2
      = some (tempDelayMs 1)
    ∧ (onDisconnected ("LOGOUT") (freshSession "f" 0)).2 = none
    ∧ (onDisconnected ("NAVIGATION") (freshSession "f" 0)).2 = none
    ∧ persistentDelayMs 7 = 60000
    ∧ persistentDelayMs 3 ≤ persistentDelayMs 5 :=
  ⟨c5_reconnect_policy.1 ("stream error")
      { freshSession "f" 0 with isPersistent := true, reconnectAttempts := 2 }
      rfl (by decide),
   c5_reconnect_policy.2.1 ("stream error")
      { freshSession "f" 0 with reconnectAttempts := 1 } rfl (by decide) (by decide),
   c5_reconnect_policy.2.2.1 (freshSession "f" 0) rfl,
   c5_reconnect_policy.2.2.2.1 (freshSession "f" 0) rfl,
   c5_reconnect_policy.2.2.2.2.2.2.1 7 (by decide),
   c5_reconnect_policy.2.2.2.2.2.2.2.2.1 3 5 (by decide)⟩

lemma applyOp_isPersistent_eq (s : Session) (op : SessionOp) :
    (applyOp s op).isPersistent = persistStep s.isPersistent op := by
  cases op with
  | qr renderOk url => cases renderOk <;> simp [applyOp, persistStep]
  | ready t => rfl
  | authenticated => rfl
  | authFailure => rfl
  | disconnected r => rfl
  | reset => rfl
  | permanentDisconnect =>
    by_cases h : s.hasClient = true <;>
      simp [applyOp, disconnectPermanently, persistStep, h]
  | initClient =>
    show (initializeClient s).isPersistent = s.isPersistent
    rw [initializeClient]
    split
    · rfl
    · dsimp only
      split <;> rfl
  | drain send =>
    show (((processQueueStep send (some s)).1).getD s).isPersistent = s.isPersistent
    rw [processQueueStep]
    split <;> rfl
  | touch t => rfl
  | enqueue msg => rfl

lemma foldl_applyOp_isPersistent (ops : List SessionOp) :
    ∀ s : Session, (ops.foldl applyOp s).isPersistent = ops.foldl persistStep s.isPersistent := by
  induction ops with
  | nil => intro s; rfl
  | cons op rest ih =>
    intro s
    rw [List.foldl_cons, List.foldl_cons, ih, applyOp_isPersistent_eq]

lemma readyObservedRevFrom_append (b : Bool) (xs : List SessionOp) (op : SessionOp) :
    readyObservedRevFrom b (xs ++ [op]) = readyObservedRevFrom (persistStep b op) xs := by
  induction xs with
  | nil => cases op <;> rfl
  | cons x xs ih => cases x <;> simp [readyObservedRevFrom, ih]

lemma foldl_persistStep_rev (ops : List SessionOp) :
    ∀ b : Bool, ops.foldl persistStep b = readyObservedRevFrom b ops.reverse := by
  induction ops with
  | nil => intro b; rfl
  | cons op rest ih =>
    intro b
    rw [List.foldl_cons, ih, List.reverse_cons, readyObservedRevFrom_append]

/-- C4: the ready handler sets status ready, isReady true, clears the QR
payload, resets reconnectAttempts, sets isPersistent true with lastLinked
now and invokes the persistence save; over any operation trace from a
fresh session, isPersistent holds exactly when a ready event was observed
after the last permanent disconnect; and no operation other than the
ready event ever turns isPersistent from false to true. -/
theorem c4_ready_persistence :
    (∀ (t : Nat) (s : Session),
        onReady t s = ({ s with isReady := true
                                status := SessionStatus.ready
                                qrCode := none
                                reconnectAttempts := 0
                                isPersistent := true
                                lastLinked := some t }, true))
    ∧ (∀ (ops : List SessionOp) (f : String) (t0 : Nat),
        (ops.foldl applyOp (freshSession f t0)).isPersistent = readyObservedRev ops.reverse)
    ∧ (∀ (s : Session) (op : SessionOp), (∀ t, op ≠ SessionOp.ready t) →
        (applyOp s op).isPersistent = true → s.isPersistent = true) := by
  refine ⟨fun t s => rfl, fun ops f t0 => ?_, fun s op hne hp => ?_⟩
  · rw [foldl_applyOp_isPersistent, foldl_persistStep_rev]
    rfl
  · rw [applyOp_isPersistent_eq] at hp
    cases op
    case ready t => exact absurd rfl (hne t)
    case permanentDisconnect => exact Bool.noConfusion hp
    all_goals exact hp

/-- C4 witness: the trace characterization and the no-other-event part
applied at concrete inputs. -/
theorem c4_ready_persistence_witness :
    ([SessionOp.authenticated, SessionOp.ready 5].foldl applyOp
        (freshSession "f" 0)).isPersistent
      = readyObservedRev ([SessionOp.authenticated, SessionOp.ready 5].reverse)
    ∧ ((applyOp (freshSession "f" 0) SessionOp.authenticated).isPersistent = true →
        (freshSession "f" 0).isPersistent = true) :=
  ⟨c4_ready_persistence.2.1 [SessionOp.authenticated, SessionOp.ready 5] "f" 0,
   c4_ready_persistence.2.2 (freshSession "f" 0) SessionOp.authenticated
      (fun _ h => SessionOp.noConfusion h)⟩

lemma reachable_ready_persistent :
    ∀ s : Session, ReachableSession s →
      s.status = SessionStatus.ready → s.isPersistent = true := by
  intro s h
  induction h with
  | fresh f t => exact fun hc => SessionStatus.noConfusion hc
  | restored f l c n => exact fun _ => rfl
  | step s op hs ih =>
    cases op with
    | qr renderOk url =>
      cases renderOk <;> exact fun hc => SessionStatus.noConfusion hc
    | ready t => exact fun _ => rfl
    | authenticated => exact fun hc => SessionStatus.noConfusion hc
    | authFailure => exact fun hc => SessionStatus.noConfusion hc
    | disconnected r => exact fun hc => SessionStatus.noConfusion hc
    | reset => exact fun hc => SessionStatus.noConfusion hc
    | permanentDisconnect =>
      intro hc
      have hst : (applyOp s SessionOp.permanentDisconnect).status
          = SessionStatus.manually_disconnected := by
        show (disconnectPermanently s).1.status = _
        rw [disconnectPermanently]
        split <;> rfl
      rw [hst] at hc
      exact SessionStatus.noConfusion hc
    | initClient =>
      show (initializeClient s).status = _ → (initializeClient s).isPersistent = true
      rw [initializeClient]
      split
      · exact ih
      · dsimp only
        split
        · exact fun hc => SessionStatus.noConfusion hc
        · exact fun hc => SessionStatus.noConfusion hc
    | drain send =>
      show (((processQueueStep send (some s)).1).getD s).status = _ →
           (((processQueueStep send (some s)).1).getD s).isPersistent = true
      rw [processQueueStep]
      split
      · exact ih
      · exact ih
    | touch t => exact ih
    | enqueue msg => exact ih

/-- C6: the reaper never evicts a reachable session whose status is ready,
regardless of age or idle time, and it evicts a persistent session exactly
when its age exceeds three times the session timeout while the session is
simultaneously not ready and in disconnected status; a ready session is
kept by the cleanup sweep of any sessions map containing it. -/
theorem c6_reaper_safety :
    ∀ (now : Nat) (s : Session), ReachableSession s →
      (s.status = SessionStatus.ready → shouldEvict now s = false)
      ∧ (s.isPersistent = true →
          (shouldEvict now s = true ↔
            (SESSION_TIMEOUT * 3 < now - s.createdAt ∧ s.isReady = false
              ∧ s.status = SessionStatus.disconnected)))
      ∧ (∀ (m : SessionMap) (k : String), (k, s) ∈ m →
          s.status = SessionStatus.ready → (k, s) ∈ cleanupOldSessions now m) := by
  intro now s hreach
  have hinv : s.status = SessionStatus.ready → s.isPersistent = true :=
    reachable_ready_persistent s hreach
  have hev : s.status = SessionStatus.ready → shouldEvict now s = false := by
    intro hr
    simp [shouldEvict, hinv hr, hr]
  refine ⟨hev, fun hp => ?_, fun m k hm hr => ?_⟩
  · simp [shouldEvict, hp, Bool.and_eq_true, Bool.not_eq_true', decide_eq_true_iff, and_assoc]
  · rw [cleanupOldSessions]
    exact List.mem_filter.mpr ⟨hm, by simp [hev hr]⟩

/-- C6 witness: a concrete reachable ready session survives the reaper at
an arbitrarily late sweep time, and the persistent eviction
characterization holds for it. -/
theorem c6_reaper_safety_witness :
    shouldEvict 999999999999 (applyOp (freshSession "f" 0) (SessionOp.ready 5)) = false
    ∧ (shouldEvict 999999999999 (applyOp (freshSession "f" 0) (SessionOp.ready 5)) = true ↔
        (SESSION_TIMEOUT * 3 <
            999999999999 - (applyOp (freshSession "f" 0) (SessionOp.ready 5)).createdAt
          ∧ (applyOp (freshSession "f" 0) (SessionOp.ready 5)).isReady = false
          ∧ (applyOp (freshSession "f" 0) (SessionOp.ready 5)).status
              = SessionStatus.disconnected)) :=
  ⟨(c6_reaper_safety 999999999999 _
      (ReachableSession.step (freshSession "f" 0) (SessionOp.ready 5)
        (ReachableSession.fresh "f" 0))).1 rfl,
   (c6_reaper_safety 999999999999 _
      (ReachableSession.step (freshSession "f" 0) (SessionOp.ready 5)
        (ReachableSession.fresh "f" 0))).2.1 rfl⟩

lemma alistGet_mapSet_self (m : SessionMap) (k : String) (v : Session) :
    alistGet (mapSet m k v) k = some v := by
  induction m with
  | nil => simp [mapSet, alistGet]
  | cons p rest ih =>
    by_cases h : p.1 = k
    · simp [mapSet, alistGet, h]
    · simp [mapSet, alistGet, h, ih]

lemma mapSet_self_of_get (m : SessionMap) (k : String) (v : Session)
    (h : alistGet m k = some v) : mapSet m k v = m := by
  induction m with
  | nil => simp [alistGet] at h
  | cons p rest ih =>
    by_cases hp : p.1 = k
    · rw [alistGet, if_pos hp] at h
      rw [mapSet, if_pos hp]
      injection h with h2
      rw [← hp, ← h2]
    · rw [alistGet, if_neg hp] at h
      rw [mapSet, if_neg hp, ih h]

lemma getOrCreate_result (now : Nat) (m : SessionMap) (fid : String) (h : fid ≠ "") :
    ∃ s : Session,
      (getOrCreateSession now m fid).2 = some s
      ∧ s.lastActivity = now
      ∧ alistGet (getOrCreateSession now m fid).1 ("firm_" ++ fid) = some s := by
  rcases h0 : alistGet m ("firm_" ++ fid) with _ | s0
  · refine ⟨{ freshSession fid now with lastActivity := now }, ?_, rfl, ?_⟩
    · rw [getOrCreateSession, if_neg h]
      simp only [h0, alistGet_mapSet_self]
    · rw [getOrCreateSession, if_neg h]
      simp only [h0, alistGet_mapSet_self]
  · refine ⟨{ s0 with lastActivity := now }, ?_, rfl, ?_⟩
    · rw [getOrCreateSession, if_neg h]
      simp only [h0]
    · rw [getOrCreateSession, if_neg h]
      simp only [h0, alistGet_mapSet_self]

lemma getOrCreate_stable (now : Nat) (m : SessionMap) (fid : String) (h : fid ≠ "") :
    getOrCreateSession now (getOrCreateSession now m fid).1 fid
      = getOrCreateSession now m fid := by
  obtain ⟨s, h2, hact, hget⟩ := getOrCreate_result now m fid h
  have hupd : { s with lastActivity := now } = s := by
    rw [← hact]
  rw [getOrCreateSession, if_neg h]
  simp only [hget, hupd, mapSet_self_of_get _ _ _ hget]
  exact Prod.ext rfl h2.symm

/-- C7: a token that does not match the firm-prefixed shape resolves to
not found; for a valid token resolving twice returns the same session and
leaves the registry unchanged (idempotent creation); a fresh session is
created only when the firm has no entry yet, with status disconnected, an
empty queue and isPersistent false; and every successful resolution
refreshes lastActivity to the current time. -/
theorem c7_session_resolution :
    (∀ (now : Nat) (m : SessionMap) (tok : String),
        parseFirmId tok = none → getSession now m tok = (m, none))
    ∧ (∀ (now : Nat) (m : SessionMap) (tok : String) (fid : String),
        parseFirmId tok = some fid → fid ≠ "" →
        getSession now (getSession now m tok).1 tok = getSession now m tok)
    ∧ (∀ (now : Nat) (m : SessionMap) (fid : String), fid ≠ "" →
        alistGet m ("firm_" ++ fid) = none →
        (getOrCreateSession now m fid).2 = some (freshSession fid now)
        ∧ (getOrCreateSession now m fid).1
            = mapSet m ("firm_" ++ fid) (freshSession fid now)
        ∧ (freshSession fid now).status = SessionStatus.disconnected
        ∧ (freshSession fid now).messageQueue = []
        ∧ (freshSession fid now).isPersistent = false)
    ∧ (∀ (now : Nat) (m : SessionMap) (fid : String) (s : Session),
        (getOrCreateSession now m fid).2 = some s → s.lastActivity = now) := by
  refine ⟨fun now m tok h => ?_, fun now m tok fid hp hf => ?_,
          fun now m fid hf h0 => ?_, fun now m fid s h => ?_⟩
  · simp [getSession, h]
  · simp only [getSession, hp]
    exact getOrCreate_stable now m fid hf
  · refine ⟨?_, ?_, rfl, rfl, rfl⟩
    · rw [getOrCreateSession, if_neg hf]
      simp only [h0, alistGet_mapSet_self]
      rfl
    · rw [getOrCreateSession, if_neg hf]
      simp only [h0, alistGet_mapSet_self]
      exact mapSet_self_of_get _ _ _
        (alistGet_mapSet_self m ("firm_" ++ fid) (freshSession fid now))
  · by_cases hf : fid = ""
    · rw [getOrCreateSession, if_pos hf] at h
      cases h
    · obtain ⟨s0, h2, hact, _⟩ := getOrCreate_result now m fid hf
      rw [h2] at h
      injection h with h3
      rw [← h3]
      exact hact

/-- C7 witness: resolution at a concrete valid token, twice, a concrete
invalid token, and a concrete fresh creation. -/
theorem c7_session_resolution_witness :
    getSession 0 [] ("bogus-token") = ([], none)
    ∧ getSession 0 (getSession 0 [] ("firm_abc_x1")).1 ("firm_abc_x1")
        = getSession 0 [] ("firm_abc_x1")
    ∧ (getOrCreateSession 0 [] ("abc")).2 = some (freshSession ("abc") 0)
    ∧ (freshSession ("abc") 3).lastActivity = 3 :=
  ⟨c7_session_resolution.1 0 [] ("bogus-token") (by decide),
   c7_session_resolution.2.1 0 [] ("firm_abc_x1") ("abc") (by decide) (by decide),
   (c7_session_resolution.2.2.1 0 [] ("abc") (by decide) (by decide)).1,
   c7_session_resolution.2.2.2 3 [] ("abc") (freshSession ("abc") 3) (by decide)⟩

lemma save_excludes (M : SessionMap) (fid : String)
    (h : ∀ p ∈ M, p.2.firmId = fid → p.2.isPersistent = false) :
    alistGet (savePersistedSessions M) fid = none := by
  induction M with
  | nil => rfl
  | cons p rest ih =>
    have hrest : ∀ q ∈ rest, q.2.firmId = fid → q.2.isPersistent = false :=
      fun q hq => h q (List.mem_cons_of_mem p hq)
    by_cases hp : p.2.isPersistent = true ∧ p.2.lastLinked.isSome = true
    · have hne : p.2.firmId ≠ fid := by
        intro he
        have hfalse := h p (List.mem_cons_self p rest) he
        rw [hfalse] at hp
        exact Bool.noConfusion hp.1
      rw [savePersistedSessions, if_pos hp, alistGet, if_neg hne]
      exact ih hrest
    · rw [savePersistedSessions, if_neg hp]
      exact ih hrest

/-- C8: permanently disconnecting a session with a client clears the QR
payload, readiness and queue, drops persistence and lastLinked, sets
status manually_disconnected, issues a logout before the destroy, and the
subsequent persistence save of any map whose sessions for this tenant are
all non-persistent (in particular the updated one) contains no record for
the tenant. -/
theorem c8_permanent_disconnect :
    ∀ s : Session, s.hasClient = true →
      (disconnectPermanently s).1 =
        { s with qrCode := none, isReady := false
                 status := SessionStatus.manually_disconnected
                 messageQueue := [], isPersistent := false
                 lastLinked := none, hasClient := false }
      ∧ (disconnectPermanently s).2 = [ClientAction.logout, ClientAction.destroy]
      ∧ (disconnectPermanently s).1.firmId = s.firmId
      ∧ (disconnectPermanently s).1.isPersistent = false
      ∧ (∀ M : SessionMap,
          (∀ p ∈ M, p.2.firmId = s.firmId → p.2.isPersistent = false) →
          alistGet (savePersistedSessions M) s.firmId = none)
      ∧ alistGet
          (savePersistedSessions [("firm_" ++ s.firmId, (disconnectPermanently s).1)])
          s.firmId = none := by
  intro s h
  have hs1 : (disconnectPermanently s).1 =
      { s with qrCode := none, isReady := false
               status := SessionStatus.manually_disconnected
               messageQueue := [], isPersistent := false
               lastLinked := none, hasClient := false } := by
    rw [disconnectPermanently, if_pos h]
  have hpers : (disconnectPermanently s).1.isPersistent = false := by
    rw [hs1]
  refine ⟨hs1, ?_, ?_, hpers, fun M hM => save_excludes M s.firmId hM, ?_⟩
  · rw [disconnectPermanently, if_pos h]
  · rw [hs1]
  · refine save_excludes _ _ ?_
    intro p hp hf
    rcases List.mem_singleton.mp hp with rfl
    exact hpers

/-- Concrete linked session used by the C8 witness. -/
def linkedSession : Session :=
  { freshSession "f" 0 with hasClient := true, isPersistent := true, lastLinked := some 5, isReady := true, status := SessionStatus.ready }

/-- C8 witness: the permanent disconnect applied at a concrete linked
session with a client attached. -/
theorem c8_permanent_disconnect_witness :
    (disconnectPermanently linkedSession).2
      = [ClientAction.logout, ClientAction.destroy]
    ∧ (disconnectPermanently linkedSession).1.isPersistent = false
    ∧ alistGet
        (savePersistedSessions
          [("firm_" ++ linkedSession.firmId, (disconnectPermanently linkedSession).1)])
        linkedSession.firmId = none :=
  ⟨(c8_permanent_disconnect linkedSession rfl).2.1,
   (c8_permanent_disconnect linkedSession rfl).2.2.2.1,
   (c8_permanent_disconnect linkedSession rfl).2.2.2.2.2⟩
